import Mathlib

/-!
Verification of the two-script build/boot/capture pipeline:
`src/create_bootimage.py` (Image Builder) and `src/temp_qemu_capture.py`
(Boot Capture Runner).  Each Python script is shallowly embedded as a pure
function from an environment — describing the filesystem state, the result
of the one subprocess invocation, and the outcome of the one file write —
to a run record: the ordered trace of observable effects (console prints,
the subprocess spawn, the filesystem write), the process exit status, and
the classified outcome.
-/

namespace OSPipeline

/-- Kind of filesystem entry present at a path (Python distinguishes
`Path.exists`, true for both, from `Path.is_file`, true only for `file`). -/
inductive FSType
  | file
  | dir
deriving DecidableEq

/-- Result of a subprocess that was successfully launched and ran to
completion: `subprocess.run(..., capture_output=True, text=True)` yields a
return code and the captured stdout/stderr texts. -/
structure RunResult where
  returncode : Int
  stdout : String
  stderr : String
deriving DecidableEq

/-- Outcome of attempting to launch a subprocess: either it launched and
exited with a `RunResult`, or the executable could not be launched at all
(Python raises `FileNotFoundError` with message `msg` from `subprocess.run`). -/
inductive SubprocessOutcome
  | launched (r : RunResult)
  | launchFailure (msg : String)
deriving DecidableEq

/-- Observable effects a run performs, in order: a console print of one
line, a subprocess spawn (command vector and optional working directory),
or a filesystem write of `content` to `path` (the call to `write_text`). -/
inductive Effect
  | printEff (line : String)
  | spawn (cmdv : List String) (cwd : Option String)
  | fsWrite (path : String) (content : String)
deriving DecidableEq

/-- The filesystem writes occurring in an effect trace, in order. -/
def writesOf (t : List Effect) : List Effect :=
  t.filter fun e =>
    match e with
    | .fsWrite _ _ => true
    | _ => false

/-- The number of subprocess spawns occurring in an effect trace. -/
def spawnCount (t : List Effect) : Nat :=
  (t.filter fun e =>
    match e with
    | .spawn _ _ => true
    | _ => false).length

/-- `leadsWith hay needle` holds when `needle` is an initial segment of `hay`. -/
def leadsWith : List Char → List Char → Bool
  | _, [] => true
  | [], _ :: _ => false
  | a :: as, b :: bs => a == b && leadsWith as bs

/-- `hasSub hay needle`: `needle` occurs contiguously somewhere in `hay`. -/
def hasSub : List Char → List Char → Bool
  | [], needle => needle.isEmpty
  | a :: as, needle => leadsWith (a :: as) needle || hasSub as needle

/-- String containment test: does `hay` contain `needle` as a substring? -/
def strContains (hay needle : String) : Bool :=
  hasSub hay.data needle.data

/-- Final path component: the characters after the last `/` or `\` separator. -/
def fileName (p : String) : String :=
  String.mk (((p.data.reverse).takeWhile fun c => !(c == '/' || c == '\\')).reverse)

end OSPipeline

namespace OSPipeline.CreateBootimage

/-- `kernel_path = Path("target/x86_64-blog_os/debug/tiny_os")` from
`create_bootimage.py` line 11. -/
def kernel_path : String := "target/x86_64-blog_os/debug/tiny_os"

/-- `output_path = Path("target/x86_64-blog_os/debug/tiny_os.efi.img")` from
`create_bootimage.py` line 12. -/
def output_path : String := "target/x86_64-blog_os/debug/tiny_os.efi.img"

/-- `str(output_path.parent)`: the directory component of `output_path`. -/
def output_dir : String := "target/x86_64-blog_os/debug"

/-- The builder command vector from `create_bootimage.py` lines 21 to 25. -/
def cmd : List String :=
  ["cargo", "builder", "--kernel-binary", kernel_path, "--out-dir", output_dir]

/-- Classified outcome of one Image Builder run, one constructor per exit
path of `main` in the source: the missing-kernel early exit (line 16), the
caught `CalledProcessError` branch (lines 32-35), the missing-output branch
(lines 40-41), the success fall-through, and an uncaught exception when the
builder executable cannot be launched (`FileNotFoundError` is not caught by
the `except subprocess.CalledProcessError` clause). -/
inductive BuildOutcome
  | missingKernel
  | toolFailure (stderrText : String)
  | silentFailure
  | success
  | uncaughtLaunch (msg : String)
deriving DecidableEq

/-- Environment of one Image Builder run: what is on disk at `kernel_path`
before the run, what the builder subprocess does when invoked, and whether
`output_path` exists after the subprocess exits. -/
structure BuildEnv where
  kernelEntry : Option FSType
  runResult : SubprocessOutcome
  outputExistsAfter : Bool
deriving DecidableEq

/-- Record of one Image Builder run. -/
structure BuildRun where
  trace : List Effect
  exitStatus : Nat
  outcome : BuildOutcome
deriving DecidableEq

/-- Abstraction of `str(e)` for `subprocess.CalledProcessError e` as printed
by line 33 of the source; the claims only inspect that this line is distinct
from the captured-stderr line printed after it. -/
def calledProcessErrorMsg (rc : Int) : String :=
  "Error creating boot image: Command returned non-zero exit status " ++
    toString rc ++ "."

/-- Shallow embedding of `main` from `create_bootimage.py`.

Line 14 tests `kernel_path.exists()` (true for any entry, file or
directory); on failure it prints the error naming the path and exits 1.
Otherwise line 18 prints the status line, line 28 runs the builder with
`check=True`: a launch failure raises an uncaught `FileNotFoundError`
(CPython then terminates with status 1), a nonzero return code raises
`CalledProcessError`, caught at line 32, which prints the exception and the
captured stderr and exits 1.  On return code zero, lines 29-31 print the
captured stdout and, when stderr is nonempty, the warnings line; lines
37-41 then test `output_path.exists()` and either print the success line
(exit status 0) or the silent-failure line and exit 1. -/
def main (env : BuildEnv) : BuildRun :=
  if env.kernelEntry.isSome then
    let t0 : List Effect :=
      [.printEff ("Creating UEFI boot image from " ++ kernel_path)]
    match env.runResult with
    | .launchFailure msg =>
        { trace := t0 ++ [.spawn cmd none]
          exitStatus := 1
          outcome := .uncaughtLaunch msg }
    | .launched r =>
        if r.returncode == 0 then
          let t1 : List Effect :=
            t0 ++ [.spawn cmd none, .printEff r.stdout] ++
              (if r.stderr == "" then []
               else [.printEff ("Warnings/Info: " ++ r.stderr)])
          if env.outputExistsAfter then
            { trace := t1 ++ [.printEff ("✓ Boot image created: " ++ output_path)]
              exitStatus := 0
              outcome := .success }
          else
            { trace := t1 ++ [.printEff "✗ Boot image was not created"]
              exitStatus := 1
              outcome := .silentFailure }
        else
          { trace := t0 ++ [.spawn cmd none,
                            .printEff (calledProcessErrorMsg r.returncode),
                            .printEff r.stderr]
            exitStatus := 1
            outcome := .toolFailure r.stderr }
  else
    { trace := [.printEff ("Error: Kernel not found at " ++ kernel_path)]
      exitStatus := 1
      outcome := .missingKernel }

end OSPipeline.CreateBootimage

namespace OSPipeline.TempQemuCapture

/-- `workspace = pathlib.Path(r"c:\Users\jungamer64\Desktop\OS")` from
`temp_qemu_capture.py` line 4 (a Windows path; path joins use `\`). -/
def workspace : String := "c:\\Users\\jungamer64\\Desktop\\OS"

/-- `bin_path = workspace / "target" / "x86_64-blog_os" / "debug" /
"bootimage-tiny_os.bin"` from line 5. -/
def bin_path : String :=
  workspace ++ "\\target\\x86_64-blog_os\\debug\\bootimage-tiny_os.bin"

/-- The emulator command vector from lines 6 to 14. -/
def cmd : List String :=
  ["qemu-system-x86_64",
   "-drive", "format=raw,file=" ++ bin_path,
   "-serial", "stdio",
   "-display", "none",
   "-m", "128M",
   "-no-reboot",
   "-no-shutdown"]

/-- The capture log path `workspace / "serial.log"` from line 18. -/
def serialLogPath : String := workspace ++ "\\serial.log"

/-- The capture log content formula from line 18:
`proc.stdout + "\nSTDERR:\n" + proc.stderr`. -/
def logContent (out err : String) : String := out ++ "\nSTDERR:\n" ++ err

/-- Outcome of the `write_text` call: it either persists the content or
raises an `OSError` whose message is `msg`. -/
inductive WriteOutcome
  | ok
  | failed (msg : String)
deriving DecidableEq

/-- Environment of one Boot Capture Runner run: whether the boot image
exists at `bin_path`, what the emulator subprocess does when invoked, and
what happens when the given content is written to the capture log. -/
structure CaptureEnv where
  imageExists : Bool
  qemu : SubprocessOutcome
  writeResult : String → WriteOutcome

/-- Record of one Boot Capture Runner run: the effect trace, the process
exit status, and, when the run died of an uncaught Python exception, that
exception message. -/
structure CaptureRun where
  trace : List Effect
  exitStatus : Nat
  uncaughtError : Option String
deriving DecidableEq

/-- Shallow embedding of the module-level script `temp_qemu_capture.py`.

Line 15 prints the command line; line 16 runs the emulator with
`cwd=workspace` (a launch failure raises an uncaught `FileNotFoundError`;
CPython then terminates with status 1); line 17 prints the return code;
line 18 writes `logContent` to `serial.log` (a write failure raises an
uncaught `OSError`; CPython then terminates with status 1).  The script
never consults `env.imageExists` — the source performs no existence check
on `bin_path` — and never branches on the return code. -/
def run (env : CaptureEnv) : CaptureRun :=
  let t0 : List Effect :=
    [.printEff ("Running: " ++ String.intercalate " " cmd)]
  match env.qemu with
  | .launchFailure msg =>
      { trace := t0 ++ [.spawn cmd (some workspace)]
        exitStatus := 1
        uncaughtError := some msg }
  | .launched r =>
      let content := logContent r.stdout r.stderr
      let t1 : List Effect :=
        t0 ++ [.spawn cmd (some workspace),
               .printEff ("QEMU exited with " ++ toString r.returncode),
               .fsWrite serialLogPath content]
      match env.writeResult content with
      | .ok =>
          { trace := t1, exitStatus := 0, uncaughtError := none }
      | .failed msg =>
          { trace := t1, exitStatus := 1, uncaughtError := some msg }

end OSPipeline.TempQemuCapture

namespace OSPipeline

/-- C1: whenever the emulator subprocess is launched and its output
captured, the content handed to the capture log write is exactly
`stdout ++ "\nSTDERR:\n" ++ stderr`, with nothing else, for any return
code; in particular for stdout `"BOOT OK\n"` and empty stderr the content
is `"BOOT OK\n\nSTDERR:\n"`. -/
theorem c1_capture_log_format (env : TempQemuCapture.CaptureEnv)
    (r : RunResult) (h : env.qemu = .launched r) :
    writesOf (TempQemuCapture.run env).trace =
      [Effect.fsWrite TempQemuCapture.serialLogPath
        (r.stdout ++ "\nSTDERR:\n" ++ r.stderr)] ∧
    TempQemuCapture.logContent "BOOT OK\n" "" = "BOOT OK\n\nSTDERR:\n" := by
  constructor
  · simp only [TempQemuCapture.run, h, writesOf, TempQemuCapture.logContent]
    cases henv : env.writeResult (r.stdout ++ "\nSTDERR:\n" ++ r.stderr) <;>
      simp [List.filter]
  · rfl

/-- Witness for C1 at the concrete scenario-C input: the emulator exits 0
with stdout `"BOOT OK\n"` and empty stderr, and the write succeeds. -/
theorem c1_capture_log_format_witness :
    writesOf (TempQemuCapture.run
      { imageExists := true
        qemu := .launched { returncode := 0, stdout := "BOOT OK\n", stderr := "" }
        writeResult := fun _ => .ok }).trace =
      [Effect.fsWrite TempQemuCapture.serialLogPath "BOOT OK\n\nSTDERR:\n"] ∧
    TempQemuCapture.logContent "BOOT OK\n" "" = "BOOT OK\n\nSTDERR:\n" :=
  c1_capture_log_format
    { imageExists := true
      qemu := .launched { returncode := 0, stdout := "BOOT OK\n", stderr := "" }
      writeResult := fun _ => .ok }
    { returncode := 0, stdout := "BOOT OK\n", stderr := "" } rfl

/-- C2 counterexample: with the boot image absent (`imageExists = false`)
and the emulator launched anyway (exiting nonzero because QEMU cannot open
the disk), the run still spawns the emulator and terminates with exit
status 0 — not with status 1 and a MissingArtifact error as the claim
states.  The source performs no existence check on `bin_path`. -/
theorem c2_counterexample :
    (TempQemuCapture.run
      { imageExists := false
        qemu := .launched
          { returncode := 1, stdout := ""
            stderr := "qemu-system-x86_64: could not open disk image" }
        writeResult := fun _ => .ok }).exitStatus = 0 ∧
    spawnCount (TempQemuCapture.run
      { imageExists := false
        qemu := .launched
          { returncode := 1, stdout := ""
            stderr := "qemu-system-x86_64: could not open disk image" }
        writeResult := fun _ => .ok }).trace = 1 :=
  ⟨rfl, rfl⟩

/-- C2 amended: the Boot Capture Runner performs no existence check on the
boot-image path.  Even when the path does not exist it spawns the emulator
exactly once, and its own exit status is 0 exactly when the log write
succeeds — the missing image never by itself makes the run fail. -/
theorem c2_no_image_check (env : TempQemuCapture.CaptureEnv) (r : RunResult)
    (_h1 : env.imageExists = false) (h2 : env.qemu = .launched r) :
    spawnCount (TempQemuCapture.run env).trace = 1 ∧
    ((TempQemuCapture.run env).exitStatus = 0 ↔
      env.writeResult (TempQemuCapture.logContent r.stdout r.stderr) =
        .ok) := by
  simp only [TempQemuCapture.run, h2]
  cases henv : env.writeResult (TempQemuCapture.logContent r.stdout r.stderr) <;>
    simp_all [spawnCount, List.filter, TempQemuCapture.logContent]

/-- Witness for C2 amended at a concrete run with the image absent. -/
theorem c2_no_image_check_witness :
    spawnCount (TempQemuCapture.run
      { imageExists := false
        qemu := .launched { returncode := 1, stdout := "", stderr := "boom" }
        writeResult := fun _ => .ok }).trace = 1 ∧
    ((TempQemuCapture.run
      { imageExists := false
        qemu := .launched { returncode := 1, stdout := "", stderr := "boom" }
        writeResult := fun _ => .ok }).exitStatus = 0 ↔
      (fun _ => TempQemuCapture.WriteOutcome.ok)
        (TempQemuCapture.logContent "" "boom") =
        TempQemuCapture.WriteOutcome.ok) :=
  c2_no_image_check
    { imageExists := false
      qemu := .launched { returncode := 1, stdout := "", stderr := "boom" }
      writeResult := fun _ => .ok }
    { returncode := 1, stdout := "", stderr := "boom" } rfl rfl

/-- C6 counterexample: when the log write fails, the run terminates with
status 1 through an uncaught `OSError`, and the reported error text is just
the OS error message — it does not include the captured emulator output
(`"BOOT OK\n"` does not occur in it), contrary to the claim that the
captured content is reported so no data is lost. -/
theorem c6_counterexample :
    (TempQemuCapture.run
      { imageExists := true
        qemu := .launched { returncode := 0, stdout := "BOOT OK\n", stderr := "" }
        writeResult := fun _ =>
          .failed "PermissionError: Errno 13 Permission denied: serial.log"
        }).exitStatus = 1 ∧
    (TempQemuCapture.run
      { imageExists := true
        qemu := .launched { returncode := 0, stdout := "BOOT OK\n", stderr := "" }
        writeResult := fun _ =>
          .failed "PermissionError: Errno 13 Permission denied: serial.log"
        }).uncaughtError =
      some "PermissionError: Errno 13 Permission denied: serial.log" ∧
    strContains "PermissionError: Errno 13 Permission denied: serial.log"
      "BOOT OK\n" = false :=
  ⟨rfl, rfl, by decide⟩

/-- C6 amended: when the log write fails the run does terminate with
failure (exit status 1, via the uncaught `OSError`), but the error the run
reports is only the OS error message; the source has no handler that
attaches the captured emulator output to the failure report. -/
theorem c6_write_failure_uncaught (env : TempQemuCapture.CaptureEnv)
    (r : RunResult) (msg : String) (h : env.qemu = .launched r)
    (hw : env.writeResult (TempQemuCapture.logContent r.stdout r.stderr) =
      .failed msg) :
    (TempQemuCapture.run env).exitStatus = 1 ∧
    (TempQemuCapture.run env).uncaughtError = some msg := by
  simp [TempQemuCapture.run, h, TempQemuCapture.logContent] at hw ⊢
  rw [hw]
  exact ⟨rfl, rfl⟩

/-- Witness for C6 amended at a concrete failing write. -/
theorem c6_write_failure_uncaught_witness :
    (TempQemuCapture.run
      { imageExists := true
        qemu := .launched { returncode := 0, stdout := "hi", stderr := "" }
        writeResult := fun _ => .failed "disk full" }).exitStatus = 1 ∧
    (TempQemuCapture.run
      { imageExists := true
        qemu := .launched { returncode := 0, stdout := "hi", stderr := "" }
        writeResult := fun _ => .failed "disk full" }).uncaughtError =
      some "disk full" :=
  c6_write_failure_uncaught
    { imageExists := true
      qemu := .launched { returncode := 0, stdout := "hi", stderr := "" }
      writeResult := fun _ => .failed "disk full" }
    { returncode := 0, stdout := "hi", stderr := "" } "disk full" rfl rfl

/-- C9: a nonzero emulator exit status is informational only: it is printed
as the `QEMU exited with` line, the capture log write still happens with
the full content, and when that write succeeds the run exits with status 0
— the emulator status never makes the run fail. -/
theorem c9_exit_status_informational (env : TempQemuCapture.CaptureEnv)
    (r : RunResult) (h : env.qemu = .launched r) (_hrc : r.returncode ≠ 0)
    (hw : env.writeResult (TempQemuCapture.logContent r.stdout r.stderr) =
      .ok) :
    (TempQemuCapture.run env).exitStatus = 0 ∧
    writesOf (TempQemuCapture.run env).trace =
      [Effect.fsWrite TempQemuCapture.serialLogPath
        (TempQemuCapture.logContent r.stdout r.stderr)] ∧
    Effect.printEff ("QEMU exited with " ++ toString r.returncode) ∈
      (TempQemuCapture.run env).trace := by
  simp [TempQemuCapture.run, h, TempQemuCapture.logContent] at hw ⊢
  rw [hw]
  refine ⟨rfl, ?_, ?_⟩
  · simp [writesOf, List.filter]
  · simp

/-- Witness for C9 at a concrete run with emulator exit status 2. -/
theorem c9_exit_status_informational_witness :
    (2 : Int) ≠ 0 ∧
    (TempQemuCapture.run
      { imageExists := true
        qemu := .launched { returncode := 2, stdout := "panic", stderr := "e" }
        writeResult := fun _ => .ok }).exitStatus = 0 ∧
    writesOf (TempQemuCapture.run
      { imageExists := true
        qemu := .launched { returncode := 2, stdout := "panic", stderr := "e" }
        writeResult := fun _ => .ok }).trace =
      [Effect.fsWrite TempQemuCapture.serialLogPath
        (TempQemuCapture.logContent "panic" "e")] ∧
    Effect.printEff ("QEMU exited with " ++ toString (2 : Int)) ∈
      (TempQemuCapture.run
        { imageExists := true
          qemu := .launched { returncode := 2, stdout := "panic", stderr := "e" }
          writeResult := fun _ => .ok }).trace :=
  ⟨by decide,
   c9_exit_status_informational
    { imageExists := true
      qemu := .launched { returncode := 2, stdout := "panic", stderr := "e" }
      writeResult := fun _ => .ok }
    { returncode := 2, stdout := "panic", stderr := "e" }
    rfl (by decide) rfl⟩

/-- C10: in every run in which the emulator launched, the trace is exactly
the command print, the single spawn, the exit-status print, and then one
filesystem write to `serial.log` under the workspace — so the runner
touches exactly one path, once, after the emulator subprocess has exited.
(When the emulator cannot launch at all, the uncaught exception aborts the
script before any write.) -/
theorem c10_single_write (env : TempQemuCapture.CaptureEnv) (r : RunResult)
    (h : env.qemu = .launched r) :
    (TempQemuCapture.run env).trace =
      [Effect.printEff ("Running: " ++
          String.intercalate " " TempQemuCapture.cmd),
       Effect.spawn TempQemuCapture.cmd (some TempQemuCapture.workspace),
       Effect.printEff ("QEMU exited with " ++ toString r.returncode),
       Effect.fsWrite TempQemuCapture.serialLogPath
         (TempQemuCapture.logContent r.stdout r.stderr)] ∧
    writesOf (TempQemuCapture.run env).trace =
      [Effect.fsWrite TempQemuCapture.serialLogPath
        (TempQemuCapture.logContent r.stdout r.stderr)] := by
  simp only [TempQemuCapture.run, h]
  cases henv : env.writeResult (TempQemuCapture.logContent r.stdout r.stderr) <;>
    simp [writesOf, List.filter, TempQemuCapture.logContent]

/-- Witness for C10 at a concrete launched run. -/
theorem c10_single_write_witness :
    (TempQemuCapture.run
      { imageExists := true
        qemu := .launched { returncode := 0, stdout := "ok", stderr := "" }
        writeResult := fun _ => .ok }).trace =
      [Effect.printEff ("Running: " ++
          String.intercalate " " TempQemuCapture.cmd),
       Effect.spawn TempQemuCapture.cmd (some TempQemuCapture.workspace),
       Effect.printEff ("QEMU exited with " ++ toString (0 : Int)),
       Effect.fsWrite TempQemuCapture.serialLogPath
         (TempQemuCapture.logContent "ok" "")] ∧
    writesOf (TempQemuCapture.run
      { imageExists := true
        qemu := .launched { returncode := 0, stdout := "ok", stderr := "" }
        writeResult := fun _ => .ok }).trace =
      [Effect.fsWrite TempQemuCapture.serialLogPath
        (TempQemuCapture.logContent "ok" "")] :=
  c10_single_write
    { imageExists := true
      qemu := .launched { returncode := 0, stdout := "ok", stderr := "" }
      writeResult := fun _ => .ok }
    { returncode := 0, stdout := "ok", stderr := "" } rfl

/-- C3 counterexample: when the kernel path exists but is a directory, not
a regular file, `Path.exists()` is still true, so the Image Builder does
not fail with MissingArtifact: it invokes the builder subprocess (one
spawn) and can even report success — contrary to the claim, which quantifies
over every input where the path is not a regular file. -/
theorem c3_counterexample :
    (CreateBootimage.main
      { kernelEntry := some .dir
        runResult := .launched { returncode := 0, stdout := "", stderr := "" }
        outputExistsAfter := true }).exitStatus = 0 ∧
    (CreateBootimage.main
      { kernelEntry := some .dir
        runResult := .launched { returncode := 0, stdout := "", stderr := "" }
        outputExistsAfter := true }).outcome = .success ∧
    spawnCount (CreateBootimage.main
      { kernelEntry := some .dir
        runResult := .launched { returncode := 0, stdout := "", stderr := "" }
        outputExistsAfter := true }).trace = 1 :=
  ⟨rfl, rfl, rfl⟩

/-- C3 amended: when the kernel path does not exist at all, the Image
Builder fails immediately — exit status 1, the missing-kernel outcome, zero
subprocess spawns, and its sole output line names the configured kernel
path. -/
theorem c3_missing_kernel (env : CreateBootimage.BuildEnv)
    (h : env.kernelEntry = none) :
    (CreateBootimage.main env).exitStatus = 1 ∧
    (CreateBootimage.main env).outcome = .missingKernel ∧
    spawnCount (CreateBootimage.main env).trace = 0 ∧
    (CreateBootimage.main env).trace =
      [Effect.printEff ("Error: Kernel not found at " ++
        CreateBootimage.kernel_path)] ∧
    strContains ("Error: Kernel not found at " ++ CreateBootimage.kernel_path)
      CreateBootimage.kernel_path = true := by
  rcases env with ⟨ke, rr, oe⟩
  cases h
  exact ⟨rfl, rfl, rfl, rfl, by decide⟩

/-- Witness for C3 amended at a concrete run with no kernel artifact. -/
theorem c3_missing_kernel_witness :
    (CreateBootimage.main
      { kernelEntry := none
        runResult := .launched { returncode := 0, stdout := "", stderr := "" }
        outputExistsAfter := false }).exitStatus = 1 ∧
    (CreateBootimage.main
      { kernelEntry := none
        runResult := .launched { returncode := 0, stdout := "", stderr := "" }
        outputExistsAfter := false }).outcome = .missingKernel ∧
    spawnCount (CreateBootimage.main
      { kernelEntry := none
        runResult := .launched { returncode := 0, stdout := "", stderr := "" }
        outputExistsAfter := false }).trace = 0 ∧
    (CreateBootimage.main
      { kernelEntry := none
        runResult := .launched { returncode := 0, stdout := "", stderr := "" }
        outputExistsAfter := false }).trace =
      [Effect.printEff ("Error: Kernel not found at " ++
        CreateBootimage.kernel_path)] ∧
    strContains ("Error: Kernel not found at " ++ CreateBootimage.kernel_path)
      CreateBootimage.kernel_path = true :=
  c3_missing_kernel
    { kernelEntry := none
      runResult := .launched { returncode := 0, stdout := "", stderr := "" }
      outputExistsAfter := false } rfl

/-- C4: when the kernel artifact exists, the builder subprocess exits with
status 0, and the expected output image is still absent afterward, the
Image Builder reports the silent-failure outcome (the distinct
`✗ Boot image was not created` branch), not success, and exits 1. -/
theorem c4_silent_failure (env : CreateBootimage.BuildEnv) (r : RunResult)
    (h1 : env.kernelEntry.isSome = true) (h2 : env.runResult = .launched r)
    (h3 : r.returncode = 0) (h4 : env.outputExistsAfter = false) :
    (CreateBootimage.main env).outcome = .silentFailure ∧
    (CreateBootimage.main env).exitStatus = 1 ∧
    Effect.printEff "✗ Boot image was not created" ∈
      (CreateBootimage.main env).trace := by
  rcases env with ⟨ke, rr, oe⟩
  cases h2
  cases h4
  rcases r with ⟨rc, sout, serr⟩
  cases h3
  by_cases hserr : serr = "" <;> simp_all [CreateBootimage.main]

/-- Witness for C4 at a concrete silent-failure run. -/
theorem c4_silent_failure_witness :
    (CreateBootimage.main
      { kernelEntry := some .file
        runResult := .launched { returncode := 0, stdout := "done", stderr := "" }
        outputExistsAfter := false }).outcome = .silentFailure ∧
    (CreateBootimage.main
      { kernelEntry := some .file
        runResult := .launched { returncode := 0, stdout := "done", stderr := "" }
        outputExistsAfter := false }).exitStatus = 1 ∧
    Effect.printEff "✗ Boot image was not created" ∈
      (CreateBootimage.main
        { kernelEntry := some .file
          runResult := .launched { returncode := 0, stdout := "done", stderr := "" }
          outputExistsAfter := false }).trace :=
  c4_silent_failure
    { kernelEntry := some .file
      runResult := .launched { returncode := 0, stdout := "done", stderr := "" }
      outputExistsAfter := false }
    { returncode := 0, stdout := "done", stderr := "" } rfl rfl rfl rfl

/-- C5 counterexample: when the builder executable cannot be launched at
all, `subprocess.run` raises `FileNotFoundError`, which the
`except subprocess.CalledProcessError` clause does not catch: the run dies
of an uncaught exception (status 1) and no BuildToolFailure report carrying
a captured standard error is ever produced — there is no captured stderr.
This refutes the claim for the cannot-be-launched case it quantifies over. -/
theorem c5_counterexample :
    (CreateBootimage.main
      { kernelEntry := some .file
        runResult := .launchFailure
          "FileNotFoundError: Errno 2 No such file or directory: cargo"
        outputExistsAfter := false }).outcome =
      .uncaughtLaunch
        "FileNotFoundError: Errno 2 No such file or directory: cargo" ∧
    (CreateBootimage.main
      { kernelEntry := some .file
        runResult := .launchFailure
          "FileNotFoundError: Errno 2 No such file or directory: cargo"
        outputExistsAfter := false }).exitStatus = 1 :=
  ⟨rfl, rfl⟩

/-- C5 amended: when the builder subprocess launches but exits with a
nonzero status, the Image Builder reports the tool-failure outcome whose
diagnostic text equals the captured standard error, prints that captured
standard error, and exits 1.  (A failure to launch instead propagates as an
uncaught exception, terminating with status 1 but without this report.) -/
theorem c5_tool_failure (env : CreateBootimage.BuildEnv) (r : RunResult)
    (h1 : env.kernelEntry.isSome = true) (h2 : env.runResult = .launched r)
    (h3 : r.returncode ≠ 0) :
    (CreateBootimage.main env).outcome = .toolFailure r.stderr ∧
    (CreateBootimage.main env).exitStatus = 1 ∧
    Effect.printEff r.stderr ∈ (CreateBootimage.main env).trace := by
  simp only [CreateBootimage.main, h1, h2, if_true]
  rw [if_neg (by simpa using h3)]
  refine ⟨rfl, rfl, ?_⟩
  simp

/-- Witness for C5 amended at a concrete failing build. -/
theorem c5_tool_failure_witness :
    (101 : Int) ≠ 0 ∧
    (CreateBootimage.main
      { kernelEntry := some .file
        runResult := .launched
          { returncode := 101, stdout := "", stderr := "error: no bin target" }
        outputExistsAfter := false }).outcome =
      .toolFailure "error: no bin target" ∧
    (CreateBootimage.main
      { kernelEntry := some .file
        runResult := .launched
          { returncode := 101, stdout := "", stderr := "error: no bin target" }
        outputExistsAfter := false }).exitStatus = 1 ∧
    Effect.printEff "error: no bin target" ∈
      (CreateBootimage.main
        { kernelEntry := some .file
          runResult := .launched
            { returncode := 101, stdout := "", stderr := "error: no bin target" }
          outputExistsAfter := false }).trace :=
  ⟨by decide,
   c5_tool_failure
    { kernelEntry := some .file
      runResult := .launched
        { returncode := 101, stdout := "", stderr := "error: no bin target" }
      outputExistsAfter := false }
    { returncode := 101, stdout := "", stderr := "error: no bin target" }
    rfl rfl (by decide)⟩

/-- C7 counterexample: the fixed path the Boot Capture Runner boots does
not mention the file the Image Builder verifies, and vice versa — the
runner consumes `...bootimage-tiny_os.bin` while the builder produces and
checks `...tiny_os.efi.img`, so they are not the same path and the two
scripts do not integrate through one artifact. -/
theorem c7_counterexample :
    strContains TempQemuCapture.bin_path "tiny_os.efi.img" = false ∧
    strContains CreateBootimage.output_path "bootimage-tiny_os.bin" = false := by
  decide

/-- C7 amended: the two components use distinct fixed artifact paths: the
Image Builder verifies a file named `tiny_os.efi.img` while the Boot
Capture Runner boots a file named `bootimage-tiny_os.bin`; the final path
components differ, so the builder's verified output is not the image the
runner consumes. -/
theorem c7_distinct_paths :
    fileName TempQemuCapture.bin_path = "bootimage-tiny_os.bin" ∧
    fileName CreateBootimage.output_path = "tiny_os.efi.img" ∧
    fileName TempQemuCapture.bin_path ≠ fileName CreateBootimage.output_path := by
  decide

/-- C8: the Image Builder exits with status 0 exactly when the kernel path
exists, the builder subprocess launched and returned 0, and the expected
image path exists after it — and success coincides with the success outcome
and prints the resulting image path.  Existence of the image alone never
yields success without a successful build step in the same run. -/
theorem c8_success_iff (env : CreateBootimage.BuildEnv) :
    ((CreateBootimage.main env).exitStatus = 0 ↔
      (env.kernelEntry.isSome = true ∧
        (∃ r, env.runResult = .launched r ∧ r.returncode = 0) ∧
        env.outputExistsAfter = true)) ∧
    ((CreateBootimage.main env).outcome = .success ↔
      (CreateBootimage.main env).exitStatus = 0) ∧
    ((CreateBootimage.main env).exitStatus = 0 →
      Effect.printEff ("✓ Boot image created: " ++ CreateBootimage.output_path) ∈
        (CreateBootimage.main env).trace) := by
  rcases env with ⟨ke, rr, oe⟩
  rcases rr with ⟨rc, sout, serr⟩ | msg
  · rcases ke with _ | ft
    · simp [CreateBootimage.main]
    · by_cases hrc : rc = 0
      · by_cases hserr : serr = "" <;> cases oe <;>
          simp_all [CreateBootimage.main]
      · cases oe <;>
          simp_all [CreateBootimage.main]
  · rcases ke with _ | ft <;> simp [CreateBootimage.main]

/-- Witness for C8 at the concrete scenario-A run: kernel present, builder
exits 0, image created. -/
theorem c8_success_iff_witness :
    ((CreateBootimage.main
      { kernelEntry := some .file
        runResult := .launched { returncode := 0, stdout := "built", stderr := "" }
        outputExistsAfter := true }).exitStatus = 0 ↔
      (((some FSType.file).isSome = true) ∧
        (∃ r, SubprocessOutcome.launched
            { returncode := 0, stdout := "built", stderr := "" } =
            .launched r ∧ r.returncode = 0) ∧
        (true = true))) ∧
    ((CreateBootimage.main
      { kernelEntry := some .file
        runResult := .launched { returncode := 0, stdout := "built", stderr := "" }
        outputExistsAfter := true }).outcome = .success ↔
      (CreateBootimage.main
        { kernelEntry := some .file
          runResult := .launched { returncode := 0, stdout := "built", stderr := "" }
          outputExistsAfter := true }).exitStatus = 0) ∧
    ((CreateBootimage.main
      { kernelEntry := some .file
        runResult := .launched { returncode := 0, stdout := "built", stderr := "" }
        outputExistsAfter := true }).exitStatus = 0 →
      Effect.printEff ("✓ Boot image created: " ++ CreateBootimage.output_path) ∈
        (CreateBootimage.main
          { kernelEntry := some .file
            runResult := .launched { returncode := 0, stdout := "built", stderr := "" }
            outputExistsAfter := true }).trace) :=
  c8_success_iff
    { kernelEntry := some .file
      runResult := .launched { returncode := 0, stdout := "built", stderr := "" }
      outputExistsAfter := true }

end OSPipeline
